import Mathlib

/-!
Shallow embedding of the ROI calculator in `app.py` (the "compute on submit"
block, lines 176-200, together with the helpers and constants of lines 99-114
and the input-widget lower bounds of lines 155-164).

Python floats are modelled as exact rationals (`ℚ`): every numeric literal in
the program (0.4, 8.0, 0.03, 12.0, 1.2, 1.5, the rate tables, 25000.0, 0.2,
8.0) is an exact decimal, and the claims are stated over those exact values.
Integer inputs (staff, IT staff, device count) are modelled as `ℤ`.
-/

set_option autoImplicit false

/-- The maturity selectbox (app.py line 159) offers exactly the three strings
"Minimum", "Standard", "Advanced"; it is modelled as a closed enumeration. -/
inductive Maturity where
  | Minimum
  | Standard
  | Advanced
deriving DecidableEq, Repr

/-- `OPS_REDUCTION = {"Minimum": 0.35, "Standard": 0.25, "Advanced": 0.15}` (line 109). -/
def OPS_REDUCTION : Maturity → ℚ
  | .Minimum => 0.35
  | .Standard => 0.25
  | .Advanced => 0.15

/-- `PHISH_REDUCTION = {"Minimum": 0.30, "Standard": 0.22, "Advanced": 0.15}` (line 110). -/
def PHISH_REDUCTION : Maturity → ℚ
  | .Minimum => 0.30
  | .Standard => 0.22
  | .Advanced => 0.15

/-- `INCIDENTS_DIVISOR = {"Minimum": 120.0, "Standard": 180.0, "Advanced": 260.0}` (line 111). -/
def INCIDENTS_DIVISOR : Maturity → ℚ
  | .Minimum => 120
  | .Standard => 180
  | .Advanced => 260

/-- `LOSS_PER_INCIDENT = 25000.0` (line 112). -/
def LOSS_PER_INCIDENT : ℚ := 25000

/-- `MAX_ANNUAL_INCIDENTS = 8.0` (line 113). -/
def MAX_ANNUAL_INCIDENTS : ℚ := 8

/-- `MIN_ANNUAL_INCIDENTS = 0.2` (line 114). -/
def MIN_ANNUAL_INCIDENTS : ℚ := 0.2

/-- `def clamp(x, lo, hi): return max(lo, min(hi, x))` (line 99). -/
def clamp (x lo hi : ℚ) : ℚ := max lo (min hi x)

/-- Model of Python `int(round(x))` as applied on line 177.  Python `round`
rounds halves to even, which differs from round-half-up only when the
fractional part is exactly 1/2; the only argument the program feeds it is
`staff * 1.2`, whose exact value has fractional part in 0, 0.2, 0.4, 0.6,
0.8 (and the float evaluation of `staff * 1.2` stays within 1e-12 of that
exact value, far from any half), so `⌊x + 1/2⌋` is faithful here. -/
def pyRound (x : ℚ) : ℤ := ⌊x + 1/2⌋

/-- The raw form inputs reaching the compute block.  `hipaa` models the
two-valued selectbox of line 161 (`"Yes"` ↦ `true`, `"No"` ↦ `false`);
`devices_opt` is the "Endpoints / devices (optional)" field of line 164,
whose zero value means "auto-estimate". -/
structure ROIInput where
  staff : ℤ
  it_staff : ℤ
  level : Maturity
  hipaa : Bool
  hourly : ℚ
  devices_opt : ℤ
deriving DecidableEq, Repr

/-- `devices = devices_opt if devices_opt > 0 else int(round(staff * 1.2))` (line 177). -/
def resolveDevices (staff devices_opt : ℤ) : ℤ :=
  if devices_opt > 0 then devices_opt else pyRound ((staff : ℚ) * 1.2)

/-- `current_ops = max(0.4 * staff + 8.0 * it_staff + 0.03 * devices, 12.0)` (line 178). -/
def current_ops (staff it_staff devices : ℤ) : ℚ :=
  max (0.4 * (staff : ℚ) + 8.0 * (it_staff : ℚ) + 0.03 * (devices : ℚ)) 12.0

/-- `hours_saved = current_ops * ops_reduction_rate` (line 182). -/
def hours_saved (staff it_staff devices : ℤ) (level : Maturity) : ℚ :=
  current_ops staff it_staff devices * OPS_REDUCTION level

/-- `labor_savings_monthly = hours_saved * max(hourly, 0.0)` (line 183). -/
def labor_savings_monthly (staff it_staff devices : ℤ) (level : Maturity) (hourly : ℚ) : ℚ :=
  hours_saved staff it_staff devices level * max hourly 0

/-- `annual_incidents_baseline = clamp(staff / INCIDENTS_DIVISOR[level],
MIN_ANNUAL_INCIDENTS, MAX_ANNUAL_INCIDENTS)` (line 185). -/
def annual_incidents_baseline (staff : ℤ) (level : Maturity) : ℚ :=
  clamp ((staff : ℚ) / INCIDENTS_DIVISOR level) MIN_ANNUAL_INCIDENTS MAX_ANNUAL_INCIDENTS

/-- `annual_avoided_loss = annual_incidents_baseline * LOSS_PER_INCIDENT *
PHISH_REDUCTION[level]` (line 186).  The per-incident loss is taken as a
parameter `loss` so that statements can vary it; the program always passes
the constant `LOSS_PER_INCIDENT`. -/
def annual_avoided_loss (staff : ℤ) (level : Maturity) (loss : ℚ) : ℚ :=
  annual_incidents_baseline staff level * loss * PHISH_REDUCTION level

/-- `affordability_cap_monthly = labor_savings_monthly + (annual_avoided_loss / 12.0)`
(line 187), with the per-incident loss as a parameter as in
`annual_avoided_loss`. -/
def affordability_cap_monthly (staff it_staff devices : ℤ) (level : Maturity)
    (hourly loss : ℚ) : ℚ :=
  labor_savings_monthly staff it_staff devices level hourly
    + annual_avoided_loss staff level loss / 12.0

/-- Rule 1 of the plan heuristic (line 191): HIPAA required adds 1.0 with
reason "Requires HIPAA/BAA".  Each rule is modelled as the pair
(score contribution, appended reasons); the sequential `+=`/`append` code of
lines 190-198 is the sum / concatenation of these pairs in rule order. -/
def hipaaContrib (hipaa : Bool) : ℚ × List String :=
  if hipaa then (1.0, ["Requires HIPAA/BAA"]) else (0, [])

/-- Rule 2 (lines 192-193): staff >= 100 adds 1.0, else staff >= 30 adds 0.5. -/
def staffContrib (staff : ℤ) : ℚ × List String :=
  if staff ≥ 100 then (1.0, ["100+ staff scale"])
  else if staff ≥ 30 then (0.5, ["30–99 staff scale"])
  else (0, [])

/-- Rule 3 (lines 194-195): it_staff == 0 adds 1.0, else it_staff <= 2 adds 0.5. -/
def itContrib (it_staff : ℤ) : ℚ × List String :=
  if it_staff = 0 then (1.0, ["No dedicated IT/Sec FTE"])
  else if it_staff ≤ 2 then (0.5, ["Limited IT/Sec capacity"])
  else (0, [])

/-- Rule 4 (lines 196-197): level Minimum adds 1.0, Standard adds 0.5. -/
def levelContrib : Maturity → ℚ × List String
  | .Minimum => (1.0, ["Current controls: Minimum"])
  | .Standard => (0.5, ["Current controls: Standard"])
  | .Advanced => (0, [])

/-- Rule 5 (line 198): `staff > 0 and (devices / staff) > 1.5` adds 0.5.
Python `/` on the two ints is true division, modelled by division in `ℚ`. -/
def densityContrib (staff devices : ℤ) : ℚ × List String :=
  if 0 < staff ∧ (1.5 : ℚ) < (devices : ℚ) / (staff : ℚ) then
    (0.5, ["High device density"])
  else (0, [])

/-- Final value of `risk_score` after lines 190-198: the contributions add. -/
def risk_score (staff it_staff : ℤ) (level : Maturity) (hipaa : Bool) (devices : ℤ) : ℚ :=
  (hipaaContrib hipaa).1 + (staffContrib staff).1 + (itContrib it_staff).1
    + (levelContrib level).1 + (densityContrib staff devices).1

/-- Final value of `reasons` after lines 190-198: appends in rule order. -/
def reasons (staff it_staff : ℤ) (level : Maturity) (hipaa : Bool) (devices : ℤ) : List String :=
  (hipaaContrib hipaa).2 ++ (staffContrib staff).2 ++ (itContrib it_staff).2
    ++ (levelContrib level).2 ++ (densityContrib staff devices).2

/-- `plan = "Essential" if risk_score < 1.0 else ("Standard" if risk_score < 2.0
else "Advanced")` (line 200). -/
def plan (score : ℚ) : String :=
  if score < 1.0 then "Essential" else if score < 2.0 then "Standard" else "Advanced"

/-- The derived fields stored into the session snapshot (lines 202-212) that
the claims are about. -/
structure ROIResult where
  devices : ℤ
  current_ops : ℚ
  hours_saved : ℚ
  labor_savings_monthly : ℚ
  annual_incidents_baseline : ℚ
  annual_avoided_loss : ℚ
  affordability_cap_monthly : ℚ
  risk_score : ℚ
  reasons : List String
  plan : String
deriving DecidableEq, Repr

/-- The whole compute block (lines 176-200) on one submitted input: the device
count is resolved once (line 177) and that single value is used everywhere
below; the per-incident loss is the constant `LOSS_PER_INCIDENT`. -/
def computeROI (p : ROIInput) : ROIResult :=
  let devices := resolveDevices p.staff p.devices_opt
  { devices := devices
    current_ops := current_ops p.staff p.it_staff devices
    hours_saved := hours_saved p.staff p.it_staff devices p.level
    labor_savings_monthly := labor_savings_monthly p.staff p.it_staff devices p.level p.hourly
    annual_incidents_baseline := annual_incidents_baseline p.staff p.level
    annual_avoided_loss := annual_avoided_loss p.staff p.level LOSS_PER_INCIDENT
    affordability_cap_monthly :=
      affordability_cap_monthly p.staff p.it_staff devices p.level p.hourly LOSS_PER_INCIDENT
    risk_score := risk_score p.staff p.it_staff p.level p.hipaa devices
    reasons := reasons p.staff p.it_staff p.level p.hipaa devices
    plan := plan (risk_score p.staff p.it_staff p.level p.hipaa devices) }

/-- The single failure kind of the calculator boundary. -/
inductive EvalError where
  | InvalidInput
deriving DecidableEq, Repr

/-- Modelled from the spec: the `evaluate` operation with its `InvalidInput`
failure is the spec's name for the submission gate; in `app.py` it exists only
as the `st.number_input` lower bounds of lines 155-164 (`staff` min 1,
`it_staff` min 0, `hourly` min 0.0, `devices_opt` min 0), which refuse any
value below the minimum so the compute block never runs on one.  An input
violating a bound is mapped to `InvalidInput`; an accepted input is evaluated
by the compute block. -/
def evaluate (p : ROIInput) : Except EvalError ROIResult :=
  if p.staff < 1 ∨ p.it_staff < 0 ∨ p.hourly < 0 ∨ p.devices_opt < 0 then
    .error .InvalidInput
  else
    .ok (computeROI p)

/-! ### Helper lemmas shared by the claim theorems -/

/-- `clamp` with ordered bounds lands in the closed interval. -/
theorem clamp_bounds (x lo hi : ℚ) (h : lo ≤ hi) :
    lo ≤ clamp x lo hi ∧ clamp x lo hi ≤ hi :=
  ⟨le_max_left _ _, max_le h (min_le_left _ _)⟩

/-- Every ops-reduction rate is positive. -/
theorem OPS_REDUCTION_pos (l : Maturity) : 0 < OPS_REDUCTION l := by
  cases l <;> norm_num [OPS_REDUCTION]

/-- Every phishing-reduction rate is positive. -/
theorem PHISH_REDUCTION_pos (l : Maturity) : 0 < PHISH_REDUCTION l := by
  cases l <;> norm_num [PHISH_REDUCTION]

/-- The current-ops value never drops below the 12-hour floor. -/
theorem current_ops_ge_floor (staff it_staff devices : ℤ) :
    (12.0 : ℚ) ≤ current_ops staff it_staff devices := by
  unfold current_ops
  exact le_max_right _ _

/-- Hours saved are never negative. -/
theorem hours_saved_nonneg (staff it_staff devices : ℤ) (l : Maturity) :
    0 ≤ hours_saved staff it_staff devices l :=
  mul_nonneg (le_trans (by norm_num) (current_ops_ge_floor staff it_staff devices))
    (OPS_REDUCTION_pos l).le

/-- The incident baseline is never negative. -/
theorem annual_incidents_baseline_nonneg (staff : ℤ) (l : Maturity) :
    0 ≤ annual_incidents_baseline staff l :=
  le_trans (by norm_num [MIN_ANNUAL_INCIDENTS])
    (clamp_bounds _ _ _ (by norm_num [MIN_ANNUAL_INCIDENTS, MAX_ANNUAL_INCIDENTS])).1

/-! ### Claim theorems -/

/-- C1: for every evaluated profile (staff ≥ 1, IT staff ≥ 0, resolved
devices ≥ 0) the computed current monthly ops hours equal
`max(0.4*staff + 8.0*itStaff + 0.03*devices, 12.0)` and are therefore at
least 12.0. -/
theorem c1_current_ops_formula_and_floor (p : ROIInput)
    (hstaff : 1 ≤ p.staff) (hit : 0 ≤ p.it_staff) (hdev : 0 ≤ (computeROI p).devices) :
    (computeROI p).current_ops
        = max (0.4 * (p.staff : ℚ) + 8.0 * (p.it_staff : ℚ)
            + 0.03 * (((computeROI p).devices : ℤ) : ℚ)) 12.0
      ∧ 12.0 ≤ (computeROI p).current_ops := by
  constructor
  · rfl
  · exact le_max_right _ _

/-- Witness for C1 at staff 50, IT staff 1, auto-estimated devices (60). -/
theorem c1_witness :
    (1 : ℤ) ≤ 50 ∧ (0 : ℤ) ≤ 1
      ∧ 0 ≤ (computeROI ⟨50, 1, .Minimum, true, 65, 0⟩).devices
      ∧ 12.0 ≤ (computeROI ⟨50, 1, .Minimum, true, 65, 0⟩).current_ops := by
  have hdev : 0 ≤ (computeROI ⟨50, 1, .Minimum, true, 65, 0⟩).devices := by
    norm_num [computeROI, resolveDevices, pyRound]
  exact ⟨by norm_num, by norm_num, hdev,
    (c1_current_ops_formula_and_floor ⟨50, 1, .Minimum, true, 65, 0⟩
      (by norm_num) (by norm_num) hdev).2⟩

/-- C4: for every staff value and maturity level the incident baseline
`clamp(staff / divisor, lo, hi)` lies within the configured clamp bounds
inclusive, the bounds being lo = 0.2 and hi = 8.0; the compute block uses
exactly this baseline. -/
theorem c4_baseline_within_clamp_bounds :
    (∀ (staff : ℤ) (level : Maturity),
        MIN_ANNUAL_INCIDENTS ≤ annual_incidents_baseline staff level
          ∧ annual_incidents_baseline staff level ≤ MAX_ANNUAL_INCIDENTS)
      ∧ MIN_ANNUAL_INCIDENTS = 0.2 ∧ MAX_ANNUAL_INCIDENTS = 8.0
      ∧ ∀ p : ROIInput,
          (computeROI p).annual_incidents_baseline = annual_incidents_baseline p.staff p.level := by
  refine ⟨fun staff level => ?_, rfl, by norm_num [MIN_ANNUAL_INCIDENTS, MAX_ANNUAL_INCIDENTS],
    fun p => rfl⟩
  exact clamp_bounds _ _ _ (by norm_num [MIN_ANNUAL_INCIDENTS, MAX_ANNUAL_INCIDENTS])

/-- C7: every ops-reduction and phishing-reduction rate lies in (0, 1], and
both tables are antitone in maturity: Minimum ≥ Standard ≥ Advanced. -/
theorem c7_reduction_tables_bounds_and_monotone :
    (∀ l : Maturity,
        0 < OPS_REDUCTION l ∧ OPS_REDUCTION l ≤ 1
          ∧ 0 < PHISH_REDUCTION l ∧ PHISH_REDUCTION l ≤ 1)
      ∧ OPS_REDUCTION .Standard ≤ OPS_REDUCTION .Minimum
      ∧ OPS_REDUCTION .Advanced ≤ OPS_REDUCTION .Standard
      ∧ PHISH_REDUCTION .Standard ≤ PHISH_REDUCTION .Minimum
      ∧ PHISH_REDUCTION .Advanced ≤ PHISH_REDUCTION .Standard := by
  refine ⟨fun l => ?_, ?_, ?_, ?_, ?_⟩ <;>
    first
      | (cases l <;> norm_num [OPS_REDUCTION, PHISH_REDUCTION])
      | norm_num [OPS_REDUCTION, PHISH_REDUCTION]

/-- Rule 1 contributes a non-negative score, and appends no reason exactly
when it contributes zero. -/
theorem hipaaContrib_spec (hipaa : Bool) :
    0 ≤ (hipaaContrib hipaa).1 ∧ ((hipaaContrib hipaa).2 = [] ↔ (hipaaContrib hipaa).1 = 0) := by
  cases hipaa <;> norm_num [hipaaContrib]

/-- Rule 2 contributes a non-negative score, and appends no reason exactly
when it contributes zero. -/
theorem staffContrib_spec (staff : ℤ) :
    0 ≤ (staffContrib staff).1 ∧ ((staffContrib staff).2 = [] ↔ (staffContrib staff).1 = 0) := by
  unfold staffContrib
  split_ifs <;> norm_num

/-- Rule 3 contributes a non-negative score, and appends no reason exactly
when it contributes zero. -/
theorem itContrib_spec (it_staff : ℤ) :
    0 ≤ (itContrib it_staff).1 ∧ ((itContrib it_staff).2 = [] ↔ (itContrib it_staff).1 = 0) := by
  unfold itContrib
  split_ifs <;> norm_num

/-- Rule 4 contributes a non-negative score, and appends no reason exactly
when it contributes zero. -/
theorem levelContrib_spec (l : Maturity) :
    0 ≤ (levelContrib l).1 ∧ ((levelContrib l).2 = [] ↔ (levelContrib l).1 = 0) := by
  cases l <;> norm_num [levelContrib]

/-- Rule 5 contributes a non-negative score, and appends no reason exactly
when it contributes zero. -/
theorem densityContrib_spec (staff devices : ℤ) :
    0 ≤ (densityContrib staff devices).1
      ∧ ((densityContrib staff devices).2 = [] ↔ (densityContrib staff devices).1 = 0) := by
  unfold densityContrib
  split_ifs <;> norm_num

/-- The "High device density" reason occurs in the final reasons list exactly
when rule 5 fires: no other rule can append that string. -/
theorem high_density_mem_reasons_iff (staff it_staff : ℤ) (level : Maturity)
    (hipaa : Bool) (devices : ℤ) :
    "High device density" ∈ reasons staff it_staff level hipaa devices
      ↔ (0 < staff ∧ (1.5 : ℚ) < (devices : ℚ) / (staff : ℚ)) := by
  unfold reasons hipaaContrib staffContrib itContrib levelContrib densityContrib
  cases level <;> split_ifs <;> simp_all

/-- The final risk score equals the explicit sum of the five rule amounts. -/
theorem risk_score_eq_sum (staff it_staff devices : ℤ) (level : Maturity) (hipaa : Bool) :
    risk_score staff it_staff level hipaa devices =
        (if hipaa then 1.0 else 0)
          + (if staff ≥ 100 then 1.0 else if staff ≥ 30 then 0.5 else 0)
          + (if it_staff = 0 then 1.0 else if it_staff ≤ 2 then 0.5 else 0)
          + (if level = .Minimum then 1.0 else if level = .Standard then 0.5 else 0)
          + (if 0 < staff ∧ (1.5 : ℚ) < (devices : ℚ) / (staff : ℚ) then 0.5 else 0) := by
  unfold risk_score hipaaContrib staffContrib itContrib levelContrib densityContrib
  cases level <;> norm_num <;> split_ifs <;> first | contradiction | norm_num

/-- C2: the risk score is the sum of exactly the five rule contributions, the
plan is Essential below 1.0, Standard below 2.0 and Advanced otherwise, and
the boundary profile staff 50, IT staff 1, Standard maturity, no HIPAA and
device density at most 1.5 scores exactly 1.5, yielding plan Standard. -/
theorem c2_risk_score_sum_plan_boundary :
    (∀ p : ROIInput,
        (computeROI p).risk_score =
            (if p.hipaa then 1.0 else 0)
              + (if p.staff ≥ 100 then 1.0 else if p.staff ≥ 30 then 0.5 else 0)
              + (if p.it_staff = 0 then 1.0 else if p.it_staff ≤ 2 then 0.5 else 0)
              + (if p.level = .Minimum then 1.0 else if p.level = .Standard then 0.5 else 0)
              + (if 0 < p.staff ∧ (1.5 : ℚ) < (((computeROI p).devices : ℤ) : ℚ) / (p.staff : ℚ)
                  then 0.5 else 0)
          ∧ (computeROI p).plan =
              (if (computeROI p).risk_score < 1.0 then "Essential"
               else if (computeROI p).risk_score < 2.0 then "Standard" else "Advanced"))
      ∧ ∀ dopt : ℤ,
          ((resolveDevices 50 dopt : ℚ) / 50 ≤ 1.5) →
            (computeROI ⟨50, 1, .Standard, false, 65, dopt⟩).risk_score = 1.5
              ∧ (computeROI ⟨50, 1, .Standard, false, 65, dopt⟩).plan = "Standard" := by
  constructor
  · intro p
    constructor
    · show risk_score p.staff p.it_staff p.level p.hipaa (resolveDevices p.staff p.devices_opt)
          = (if p.hipaa then 1.0 else 0)
              + (if p.staff ≥ 100 then 1.0 else if p.staff ≥ 30 then 0.5 else 0)
              + (if p.it_staff = 0 then 1.0 else if p.it_staff ≤ 2 then 0.5 else 0)
              + (if p.level = .Minimum then 1.0 else if p.level = .Standard then 0.5 else 0)
              + (if 0 < p.staff
                    ∧ (1.5 : ℚ) < ((resolveDevices p.staff p.devices_opt : ℤ) : ℚ) / (p.staff : ℚ)
                  then 0.5 else 0)
      exact risk_score_eq_sum p.staff p.it_staff (resolveDevices p.staff p.devices_opt)
        p.level p.hipaa
    · rfl
  · intro dopt h
    have hdens : ¬ (0 < (50 : ℤ) ∧ (1.5 : ℚ) < ((resolveDevices 50 dopt : ℤ) : ℚ) / ((50 : ℤ) : ℚ)) := by
      push_neg
      intro _
      push_cast
      push_cast at h
      linarith
    have hs : (computeROI ⟨50, 1, .Standard, false, 65, dopt⟩).risk_score = 1.5 := by
      show risk_score 50 1 .Standard false (resolveDevices 50 dopt) = 1.5
      unfold risk_score hipaaContrib staffContrib itContrib levelContrib densityContrib
      rw [if_neg hdens]
      norm_num
    refine ⟨hs, ?_⟩
    show plan (risk_score 50 1 .Standard false (resolveDevices 50 dopt)) = "Standard"
    have hs2 : risk_score 50 1 .Standard false (resolveDevices 50 dopt) = 1.5 := hs
    rw [hs2]
    norm_num [plan]

/-- Witness for C2's boundary scenario at an explicit device count of 60. -/
theorem c2_witness :
    ((resolveDevices 50 60 : ℚ) / 50 ≤ 1.5)
      ∧ (computeROI ⟨50, 1, .Standard, false, 65, 60⟩).risk_score = 1.5
      ∧ (computeROI ⟨50, 1, .Standard, false, 65, 60⟩).plan = "Standard" := by
  have h : ((resolveDevices 50 60 : ℚ) / 50 ≤ 1.5) := by
    norm_num [resolveDevices]
  exact ⟨h, c2_risk_score_sum_plan_boundary.2 60 h⟩

/-- C9: each scoring rule appends exactly one reason when and only when it
adds a positive amount, so the reasons list is empty if and only if the risk
score is zero; an empty reasons list therefore forces the Essential plan. -/
theorem c9_reasons_empty_iff_zero_score (p : ROIInput) :
    ((computeROI p).reasons = [] ↔ (computeROI p).risk_score = 0)
      ∧ ((computeROI p).reasons = [] → (computeROI p).plan = "Essential") := by
  obtain ⟨h1n, h1e⟩ := hipaaContrib_spec p.hipaa
  obtain ⟨h2n, h2e⟩ := staffContrib_spec p.staff
  obtain ⟨h3n, h3e⟩ := itContrib_spec p.it_staff
  obtain ⟨h4n, h4e⟩ := levelContrib_spec p.level
  obtain ⟨h5n, h5e⟩ := densityContrib_spec p.staff (resolveDevices p.staff p.devices_opt)
  have hre : (computeROI p).reasons
      = (hipaaContrib p.hipaa).2 ++ (staffContrib p.staff).2 ++ (itContrib p.it_staff).2
        ++ (levelContrib p.level).2
        ++ (densityContrib p.staff (resolveDevices p.staff p.devices_opt)).2 := rfl
  have hsc : (computeROI p).risk_score
      = (hipaaContrib p.hipaa).1 + (staffContrib p.staff).1 + (itContrib p.it_staff).1
        + (levelContrib p.level).1
        + (densityContrib p.staff (resolveDevices p.staff p.devices_opt)).1 := rfl
  have hiff : (computeROI p).reasons = [] ↔ (computeROI p).risk_score = 0 := by
    rw [hre, hsc, List.append_eq_nil, List.append_eq_nil, List.append_eq_nil,
      List.append_eq_nil]
    constructor
    · rintro ⟨⟨⟨⟨e1, e2⟩, e3⟩, e4⟩, e5⟩
      rw [h1e.mp e1, h2e.mp e2, h3e.mp e3, h4e.mp e4, h5e.mp e5]
      norm_num
    · intro hz
      exact ⟨⟨⟨⟨h1e.mpr (by linarith), h2e.mpr (by linarith)⟩, h3e.mpr (by linarith)⟩,
        h4e.mpr (by linarith)⟩, h5e.mpr (by linarith)⟩
  refine ⟨hiff, fun he => ?_⟩
  have hz : risk_score p.staff p.it_staff p.level p.hipaa (resolveDevices p.staff p.devices_opt)
      = 0 := hiff.mp he
  show plan (risk_score p.staff p.it_staff p.level p.hipaa (resolveDevices p.staff p.devices_opt))
      = "Essential"
  rw [hz]
  norm_num [plan]

/-- Witness for C9: a profile firing no rule has an empty reasons list and is
recommended the Essential plan. -/
theorem c9_witness :
    (computeROI ⟨10, 3, .Advanced, false, 0, 0⟩).reasons = []
      ∧ (computeROI ⟨10, 3, .Advanced, false, 0, 0⟩).plan = "Essential" := by
  have he : (computeROI ⟨10, 3, .Advanced, false, 0, 0⟩).reasons = [] := by
    norm_num [computeROI, reasons, hipaaContrib, staffContrib, itContrib, levelContrib,
      densityContrib, resolveDevices, pyRound]
  exact ⟨he, (c9_reasons_empty_iff_zero_score ⟨10, 3, .Advanced, false, 0, 0⟩).2 he⟩

/-- C5: a zero (i.e. unspecified) device count resolves to round(staff * 1.2),
a positive one is used unchanged, the resolved value is non-negative, and that
single value feeds both the ops-hours formula and the device-density rule. -/
theorem c5_devices_resolution_consistent (p : ROIInput) (hstaff : 1 ≤ p.staff) :
    (p.devices_opt = 0 → (computeROI p).devices = pyRound ((p.staff : ℚ) * 1.2))
      ∧ (0 < p.devices_opt → (computeROI p).devices = p.devices_opt)
      ∧ 0 ≤ (computeROI p).devices
      ∧ (computeROI p).current_ops
          = max (0.4 * (p.staff : ℚ) + 8.0 * (p.it_staff : ℚ)
              + 0.03 * (((computeROI p).devices : ℤ) : ℚ)) 12.0
      ∧ ("High device density" ∈ (computeROI p).reasons
            ↔ (0 < p.staff
                ∧ (1.5 : ℚ) < (((computeROI p).devices : ℤ) : ℚ) / (p.staff : ℚ))) := by
  have hdev : (computeROI p).devices = resolveDevices p.staff p.devices_opt := rfl
  refine ⟨?_, ?_, ?_, rfl, ?_⟩
  · intro h0
    rw [hdev]
    unfold resolveDevices
    rw [if_neg (by omega)]
  · intro hpos
    rw [hdev]
    unfold resolveDevices
    rw [if_pos hpos]
  · rw [hdev]
    unfold resolveDevices
    split_ifs with hgt
    · omega
    · unfold pyRound
      have hs1 : (1 : ℚ) ≤ (p.staff : ℚ) := by exact_mod_cast hstaff
      have : (0 : ℚ) ≤ (p.staff : ℚ) * 1.2 + 1/2 := by nlinarith
      exact Int.le_floor.mpr (by exact_mod_cast this)
  · exact high_density_mem_reasons_iff p.staff p.it_staff p.level p.hipaa
      (resolveDevices p.staff p.devices_opt)

/-- Witness for C5 at the default profile (staff 50, devices left at zero). -/
theorem c5_witness :
    (1 : ℤ) ≤ 50
      ∧ (computeROI ⟨50, 1, .Minimum, true, 65, 0⟩).devices = pyRound ((50 : ℚ) * 1.2)
      ∧ 0 ≤ (computeROI ⟨50, 1, .Minimum, true, 65, 0⟩).devices := by
  have h := c5_devices_resolution_consistent ⟨50, 1, .Minimum, true, 65, 0⟩ (by norm_num)
  exact ⟨by norm_num, h.1 rfl, h.2.2.1⟩

/-- C8: with the device count auto-estimated, the resolved value
round(staff * 1.2) keeps the density ratio at or below 1.5 for every
staff >= 1, so the "High device density" rule never fires. -/
theorem c8_auto_devices_density_never_fires (p : ROIInput)
    (hstaff : 1 ≤ p.staff) (hauto : p.devices_opt ≤ 0) :
    (((computeROI p).devices : ℤ) : ℚ) / (p.staff : ℚ) ≤ 1.5
      ∧ "High device density" ∉ (computeROI p).reasons := by
  have hres : resolveDevices p.staff p.devices_opt = pyRound ((p.staff : ℚ) * 1.2) := by
    unfold resolveDevices
    rw [if_neg (by omega)]
  have hle : ((pyRound ((p.staff : ℚ) * 1.2) : ℤ) : ℚ) ≤ 1.5 * (p.staff : ℚ) := by
    rcases eq_or_lt_of_le hstaff with h1 | h2
    · have h1q : (p.staff : ℚ) = 1 := by exact_mod_cast h1.symm
      rw [h1q]
      norm_num [pyRound]
    · have hs2 : (2 : ℚ) ≤ (p.staff : ℚ) := by exact_mod_cast h2
      have hfl : ((pyRound ((p.staff : ℚ) * 1.2) : ℤ) : ℚ) ≤ (p.staff : ℚ) * 1.2 + 1/2 := by
        unfold pyRound
        have := Int.floor_le ((p.staff : ℚ) * 1.2 + 1/2)
        exact_mod_cast this
      nlinarith
  have hspos : (0 : ℚ) < (p.staff : ℚ) := by exact_mod_cast (by omega : (0 : ℤ) < p.staff)
  have hq : ((resolveDevices p.staff p.devices_opt : ℤ) : ℚ) / (p.staff : ℚ) ≤ 1.5 := by
    rw [hres, div_le_iff hspos]
    linarith
  refine ⟨hq, fun hmem => ?_⟩
  have hcond := (high_density_mem_reasons_iff p.staff p.it_staff p.level p.hipaa
      (resolveDevices p.staff p.devices_opt)).mp hmem
  exact absurd hcond.2 (not_lt.mpr hq)

/-- Witness for C8 at staff 1 with an auto-estimated device count. -/
theorem c8_witness :
    (1 : ℤ) ≤ 1 ∧ (0 : ℤ) ≤ 0
      ∧ (((computeROI ⟨1, 0, .Minimum, false, 0, 0⟩).devices : ℤ) : ℚ) / ((1 : ℤ) : ℚ) ≤ 1.5
      ∧ "High device density" ∉ (computeROI ⟨1, 0, .Minimum, false, 0, 0⟩).reasons := by
  have h := c8_auto_devices_density_never_fires ⟨1, 0, .Minimum, false, 0, 0⟩
    (by norm_num) (by norm_num)
  exact ⟨le_refl _, le_refl _, h.1, h.2⟩

/-- C6: holding all other inputs fixed, the monthly investment cap is
monotonically non-decreasing in the hourly labor cost and in the per-incident
loss; the program's per-incident loss constant is 25000 and the compute block
instantiates the cap with it. -/
theorem c6_cap_monotone_in_hourly_and_loss (staff it_staff devices : ℤ)
    (level : Maturity) (h1 h2 l1 l2 : ℚ) (hh : h1 ≤ h2) (hl : l1 ≤ l2) :
    affordability_cap_monthly staff it_staff devices level h1 l1
        ≤ affordability_cap_monthly staff it_staff devices level h2 l2
      ∧ LOSS_PER_INCIDENT = 25000
      ∧ ∀ p : ROIInput,
          (computeROI p).affordability_cap_monthly
            = affordability_cap_monthly p.staff p.it_staff
                (resolveDevices p.staff p.devices_opt) p.level p.hourly LOSS_PER_INCIDENT := by
  refine ⟨?_, rfl, fun p => rfl⟩
  unfold affordability_cap_monthly labor_savings_monthly annual_avoided_loss
  have hs := hours_saved_nonneg staff it_staff devices level
  have hb := annual_incidents_baseline_nonneg staff level
  have hp := (PHISH_REDUCTION_pos level).le
  have t1 : hours_saved staff it_staff devices level * max h1 0
      ≤ hours_saved staff it_staff devices level * max h2 0 :=
    mul_le_mul_of_nonneg_left (max_le_max hh le_rfl) hs
  have t2 : annual_incidents_baseline staff level * l1 * PHISH_REDUCTION level
      ≤ annual_incidents_baseline staff level * l2 * PHISH_REDUCTION level :=
    mul_le_mul_of_nonneg_right (mul_le_mul_of_nonneg_left hl hb) hp
  linarith

/-- Witness for C6 at staff 50, one IT FTE, 60 devices, Minimum maturity,
hourly 50 vs 65 and loss 20000 vs 25000. -/
theorem c6_witness :
    (50 : ℚ) ≤ 65 ∧ (20000 : ℚ) ≤ 25000
      ∧ affordability_cap_monthly 50 1 60 .Minimum 50 20000
          ≤ affordability_cap_monthly 50 1 60 .Minimum 65 25000 :=
  ⟨by norm_num, by norm_num,
    (c6_cap_monotone_in_hourly_and_loss 50 1 60 .Minimum 50 65 20000 25000
      (by norm_num) (by norm_num)).1⟩

/-- C3: the evaluation fails with InvalidInput, returning no result, exactly
when staff < 1, IT staff < 0, hourly labor cost < 0, the per-incident loss is
non-positive (never, since it is the constant 25000), or the optional device
count is negative; in particular staff = 0 fails. -/
theorem c3_evaluate_invalid_iff :
    (∀ p : ROIInput,
        evaluate p = .error .InvalidInput
          ↔ (p.staff < 1 ∨ p.it_staff < 0 ∨ p.hourly < 0
              ∨ LOSS_PER_INCIDENT ≤ 0 ∨ p.devices_opt < 0))
      ∧ evaluate ⟨0, 1, .Standard, true, 65, 0⟩ = .error .InvalidInput := by
  constructor
  · intro p
    unfold evaluate
    split_ifs with h
    · constructor
      · intro _
        rcases h with h | h | h | h
        · exact Or.inl h
        · exact Or.inr (Or.inl h)
        · exact Or.inr (Or.inr (Or.inl h))
        · exact Or.inr (Or.inr (Or.inr (Or.inr h)))
      · intro _
        rfl
    · push_neg at h
      constructor
      · intro hc
        exact absurd hc (by simp)
      · intro hdisj
        exfalso
        rcases hdisj with h1 | h1 | h1 | h1 | h1
        · exact absurd h1 (not_lt.mpr h.1)
        · exact absurd h1 (not_lt.mpr h.2.1)
        · exact absurd h1 (not_lt.mpr h.2.2.1)
        · revert h1
          norm_num [LOSS_PER_INCIDENT]
        · exact absurd h1 (not_lt.mpr h.2.2.2)
  · norm_num [evaluate]

/-- C10: a negative hourly labor cost does not make the compute block fail:
`max(hourly, 0.0)` clamps the rate to zero, the monthly labor savings are
zero, and every output field equals the one computed with rate zero. -/
theorem c10_negative_hourly_clamped (p : ROIInput) (h : p.hourly < 0) :
    (computeROI p).labor_savings_monthly = 0
      ∧ computeROI p = computeROI { p with hourly := 0 } := by
  have hmax : max p.hourly 0 = 0 := max_eq_right h.le
  constructor
  · show labor_savings_monthly p.staff p.it_staff (resolveDevices p.staff p.devices_opt)
        p.level p.hourly = 0
    unfold labor_savings_monthly
    rw [hmax, mul_zero]
  · simp only [computeROI, labor_savings_monthly, affordability_cap_monthly]
    rw [hmax]
    norm_num

/-- Witness for C10 at an hourly rate of -5. -/
theorem c10_witness :
    ((-5 : ℚ) < 0)
      ∧ (computeROI ⟨50, 1, .Minimum, true, -5, 0⟩).labor_savings_monthly = 0
      ∧ computeROI ⟨50, 1, .Minimum, true, -5, 0⟩
          = computeROI ⟨50, 1, .Minimum, true, 0, 0⟩ := by
  have h := c10_negative_hourly_clamped ⟨50, 1, .Minimum, true, -5, 0⟩ (by norm_num)
  exact ⟨by norm_num, h.1, h.2⟩
